import Mathlib

/-!
Shallow embedding of the KYC verification lifecycle engine of the
StellarSwipe backend (src/kyc/kyc.service.ts, its entities and the
Persona/Onfido provider adapters), together with theorems checking the
natural-language specification against this embedding.

Conventions of the embedding:
* Timestamps are integers counting milliseconds since the epoch
  (JavaScript Date values).  USD amounts are rationals.
* The persistent store is a plain list of verification records; the
  TypeORM calls findOne / find / count / update / delete are translated
  to list find, filter, length, map-by-id and filter-by-id.
* Provider network calls are abstracted as adapter records of pure
  functions returning an Except value; the HMAC-SHA256 primitive is an
  abstract function parameter from payload strings to hex strings.
* Thrown NestJS exceptions become constructors of an error type: the
  BadRequestException keeps its message string, the ForbiddenException of
  the limit check carries the offending limit (its message embeds a
  locale-formatted number, which is not reproduced), and a provider
  failure that is propagated unchanged keeps its payload.
* The free-form audit `details` maps are embedded as association lists of
  stringified values; entity columns createdAt / updatedAt, which no
  checked sentence mentions, are left out of the record structure.
-/

/-- Status column of a verification record (entity KycStatus). -/
inductive KycStatus where
  | PENDING
  | UNDER_REVIEW
  | APPROVED
  | REJECTED
  | EXPIRED
  | REQUIRES_ACTION
deriving DecidableEq, Fintype

/-- Verification tier (entity KycLevel, a numeric enum NONE=0 BASIC=1 ENHANCED=2). -/
inductive KycLevel where
  | NONE
  | BASIC
  | ENHANCED
deriving DecidableEq, Fintype

/-- Numeric value of the TypeScript enum member. -/
def KycLevel.toNat : KycLevel → Nat
  | .NONE => 0
  | .BASIC => 1
  | .ENHANCED => 2

/-- Identity provider of a record (entity KycProvider). -/
inductive KycProvider where
  | PERSONA
  | ONFIDO
deriving DecidableEq, Fintype

/-- String value of the provider enum member. -/
def KycProvider.str : KycProvider → String
  | .PERSONA => "persona"
  | .ONFIDO => "onfido"

/-- Audit actions (entity KycAuditAction). -/
inductive KycAuditAction where
  | INITIATED
  | DOCUMENT_SUBMITTED
  | STATUS_CHANGED
  | LEVEL_UPGRADED
  | LEVEL_DOWNGRADED
  | EXPIRED
  | RENEWAL_STARTED
  | WEBHOOK_RECEIVED
  | LIMIT_CHECKED
  | LIMIT_EXCEEDED
deriving DecidableEq, Fintype

/-- String value of the status enum member. -/
def KycStatus.str : KycStatus → String
  | .PENDING => "pending"
  | .UNDER_REVIEW => "under_review"
  | .APPROVED => "approved"
  | .REJECTED => "rejected"
  | .EXPIRED => "expired"
  | .REQUIRES_ACTION => "requires_action"

/-- Canonical provider outcome produced by a ProviderAdapter. -/
inductive CanonicalStatus where
  | approved
  | declined
  | needs_review
  | pending
deriving DecidableEq, Fintype

/-- Row of the kyc_verifications table (entity KycVerification). -/
structure KycVerification where
  id : Nat
  userId : String
  level : KycLevel
  status : KycStatus
  provider : KycProvider
  verificationId : Option String
  inquiryId : Option String
  sessionToken : Option String
  approvedAt : Option Int
  expiresAt : Option Int
  rejectionReason : Option String
  providerMetadata : List (String × String)
  attemptCount : Nat
deriving DecidableEq

/-- Row of the kyc_audit_logs table (entity KycAuditLog). -/
structure KycAuditLogEntry where
  userId : String
  verificationId : Option Nat
  action : KycAuditAction
  details : List (String × String)
  ipAddress : Option String
deriving DecidableEq

/-- Events emitted through the EventEmitter2 bus (KYC_EVENTS).  The
approved constructor covers both emission sites: the webhook path sends
an expiresAt field, the manual-review path sends manual true instead. -/
inductive KycEvent where
  | initiated (userId : String) (level : KycLevel) (verificationId : Nat)
  | approved (userId : String) (level : KycLevel) (verificationId : Nat)
      (expiresAt : Option Int) (manual : Bool)
  | rejected (userId : String) (level : KycLevel) (reason : Option String)
  | expired (userId : String) (level : KycLevel) (verificationId : Nat)
  | level_changed (userId : String) (newLevel : KycLevel)
deriving DecidableEq

/-- Errors thrown by the service (NestJS exceptions).  A propagated
provider failure keeps its opaque payload string. -/
inductive KycError where
  | badRequest (msg : String)
  | forbiddenLimit (limit : Option ℚ)
  | providerFailure (e : String)
deriving DecidableEq

/-- Canonical provider result handed to applyVerificationResult. -/
structure ProviderResult where
  status : CanonicalStatus
  verificationId : String
  declinedReasons : List String
  providerMetadata : List (String × String)
deriving DecidableEq

/-- Request body of startKyc (StartKycDto). -/
structure StartKycDto where
  targetLevel : KycLevel
  provider : Option KycProvider
  redirectUrl : Option String
deriving DecidableEq

/-- Request body of manualReview (ManualReviewDto). -/
structure ManualReviewDto where
  reviewedBy : String
  status : KycStatus
  notes : Option String
deriving DecidableEq

/-- Response of startKyc (StartKycResponseDto). -/
structure StartKycResponseDto where
  verificationRecordId : Nat
  inquiryId : String
  sessionToken : String
  widgetUrl : String
deriving DecidableEq

/-- Response of checkMonthlyLimit (KycLimitDto). -/
structure KycLimitDto where
  level : KycLevel
  monthlyLimitUsd : Option ℚ
  currentMonthUsageUsd : ℚ
  remainingUsd : Option ℚ
  isLimitReached : Bool
deriving DecidableEq

/-- Session returned by PersonaProvider.createInquiry. -/
structure PersonaInquirySession where
  inquiryId : String
  sessionToken : String
  widgetUrl : String
deriving DecidableEq

/-- Session returned by OnfidoProvider.createApplicantSession. -/
structure OnfidoApplicantSession where
  applicantId : String
  workflowRunId : String
  sdkToken : String
deriving DecidableEq

/-- Outbound calls of the Persona adapter, abstracted as pure outcome
functions (the network and the remote service are outside the model). -/
structure PersonaAdapter where
  createInquiry : String → KycLevel → Option String →
    Except String PersonaInquirySession
  resumeInquiry : String → Except String String

/-- Outbound calls of the Onfido adapter. -/
structure OnfidoAdapter where
  createApplicantSession : String → Except String OnfidoApplicantSession

/-- Truthiness of an optional string in JavaScript: undefined and the
empty string are falsy. -/
def jsTruthy : Option String → Bool
  | none => false
  | some s => s != ""

/-- The JavaScript or-else idiom `s || d` on strings: the empty string
falls through to the default. -/
def jsOrElse (s d : String) : String :=
  if s == "" then d else s

/-- Stringify an optional integer for an audit details map. -/
def optIntStr : Option Int → String
  | none => "null"
  | some t => toString t

/-- Stringify an optional rational for an audit details map. -/
def optRatStr : Option ℚ → String
  | none => "null"
  | some q => toString q

/-- One year in milliseconds (constant VERIFICATION_TTL_MS). -/
def VERIFICATION_TTL_MS : Int := 365 * 24 * 60 * 60 * 1000

/-- Level prerequisite table (constant LEVEL_PREREQUISITES). -/
def LEVEL_PREREQUISITES : KycLevel → Option KycLevel
  | .NONE => none
  | .BASIC => none
  | .ENHANCED => some .BASIC

/-- Monthly USD limit per active level (constant KYC_MONTHLY_LIMITS);
none means unlimited. -/
def KYC_MONTHLY_LIMITS : KycLevel → Option ℚ
  | .NONE => some 1000
  | .BASIC => some 10000
  | .ENHANCED => none

/-- Repository update keyed by the primary id column: every row whose id
matches is rewritten by f. -/
def updateById (db : List KycVerification) (i : Nat)
    (f : KycVerification → KycVerification) : List KycVerification :=
  db.map (fun w => if w.id = i then f w else w)

/-- Repository delete keyed by the primary id column. -/
def deleteById (db : List KycVerification) (i : Nat) : List KycVerification :=
  db.filter (fun w => w.id != i)

/-- Fresh primary id for a newly saved row: one past the maximum id in
the store (the model of uuid generation; only distinctness matters). -/
def freshId (db : List KycVerification) : Nat :=
  (db.map KycVerification.id).foldr max 0 + 1

/-- Private helper getApprovedVerification: findOne by user, level and
status APPROVED.  Note that it does not look at expiresAt. -/
def getApprovedVerification (db : List KycVerification) (userId : String)
    (level : KycLevel) : Option KycVerification :=
  db.find? (fun v => v.userId == userId && v.level == level &&
    v.status == .APPROVED)

/-- Private helper getAttemptCount: count of rows at (user, level). -/
def getAttemptCount (db : List KycVerification) (userId : String)
    (level : KycLevel) : Nat :=
  (db.filter (fun v => v.userId == userId && v.level == level)).length

/-- Private helper getCurrentMonthUsage: the source returns the constant
0 with a TODO to integrate the trades service. -/
def getCurrentMonthUsage (_userId : String) : ℚ := 0

/-- Freshness test used by getActiveKycLevel: expiresAt is null or lies
strictly in the future of now. -/
def isFresh (now : Int) (v : KycVerification) : Bool :=
  match v.expiresAt with
  | none => true
  | some t => decide (now < t)

/-- Ordering relation used for the order: level DESC clause of the
repository find inside getActiveKycLevel. -/
def levelGeRel (a b : KycVerification) : Prop :=
  b.level.toNat ≤ a.level.toNat

instance : DecidableRel levelGeRel := fun a b =>
  inferInstanceAs (Decidable (b.level.toNat ≤ a.level.toNat))

instance : IsTotal KycVerification levelGeRel :=
  ⟨fun a b => (Nat.le_total b.level.toNat a.level.toNat)⟩

instance : IsTrans KycVerification levelGeRel :=
  ⟨fun _ _ _ hab hbc => Nat.le_trans hbc hab⟩

/-- getActiveKycLevel: fetch the APPROVED records of the user ordered by
level descending and return the level of the first fresh one, NONE if no
record qualifies. -/
def getActiveKycLevel (now : Int) (db : List KycVerification)
    (userId : String) : KycLevel :=
  let approved := List.insertionSort levelGeRel
    (db.filter (fun v => v.userId == userId && v.status == .APPROVED))
  match approved.find? (fun v => isFresh now v) with
  | some v => v.level
  | none => .NONE

/-- Maximum of two levels by their numeric value. -/
def levelMax (a b : KycLevel) : KycLevel :=
  if a.toNat ≤ b.toNat then b else a

/-- Modelled from the spec: the active level is the highest level among
the APPROVED records of the user whose expiresAt is null or in the
future, defaulting to NONE.  Second definition for the refinement
comparison with getActiveKycLevel. -/
def activeLevelSpec (now : Int) (db : List KycVerification)
    (userId : String) : KycLevel :=
  (db.filter (fun v => v.userId == userId && v.status == .APPROVED &&
      isFresh now v)).foldr (fun v acc => levelMax v.level acc) .NONE

/-- checkMonthlyLimit: resolve the active level, look up the limit table,
fetch the month usage, audit in both branches, and fail iff the limit is
non-null and usage plus requested exceeds it. -/
def checkMonthlyLimit (now : Int) (db : List KycVerification)
    (userId : String) (requestedAmountUsd : ℚ) :
    Except KycError KycLimitDto × KycAuditLogEntry :=
  let level := getActiveKycLevel now db userId
  let monthlyLimit := KYC_MONTHLY_LIMITS level
  let currentMonthUsageUsd := getCurrentMonthUsage userId
  let remaining : Option ℚ :=
    match monthlyLimit with
    | none => none
    | some l => some (l - currentMonthUsageUsd)
  let isLimitReached : Bool :=
    match monthlyLimit with
    | some l => decide (currentMonthUsageUsd + requestedAmountUsd > l)
    | none => false
  let auditEntry : KycAuditLogEntry :=
    { userId := userId
      verificationId := none
      action := if isLimitReached then .LIMIT_EXCEEDED else .LIMIT_CHECKED
      details := [("level", toString level.toNat),
        ("monthlyLimit", optRatStr monthlyLimit),
        ("currentUsage", toString currentMonthUsageUsd),
        ("requested", toString requestedAmountUsd)]
      ipAddress := none }
  if isLimitReached then (.error (.forbiddenLimit monthlyLimit), auditEntry)
  else
    (.ok { level := level
           monthlyLimitUsd := monthlyLimit
           currentMonthUsageUsd := currentMonthUsageUsd
           remainingUsd := remaining
           isLimitReached := false }, auditEntry)

/-- Target record status for a canonical provider status (the switch in
applyVerificationResult). -/
def canonTarget : CanonicalStatus → KycStatus
  | .approved => .APPROVED
  | .declined => .REJECTED
  | .needs_review => .UNDER_REVIEW
  | .pending => .PENDING

/-- applyVerificationResult on one record: computes the updated record,
the STATUS_CHANGED audit entry, and the emitted events.  The service
persists the updated record with updateById on the same store. -/
def applyVerificationResult (now : Int) (v : KycVerification)
    (result : ProviderResult) :
    KycVerification × KycAuditLogEntry × List KycEvent :=
  let base := { v with verificationId := some result.verificationId,
                       providerMetadata := result.providerMetadata }
  let updated :=
    match result.status with
    | .approved =>
      { base with status := .APPROVED, approvedAt := some now,
                  expiresAt := some (now + VERIFICATION_TTL_MS),
                  rejectionReason := none }
    | .declined =>
      { base with status := .REJECTED,
                  rejectionReason := some (jsOrElse
                    (String.intercalate "; " result.declinedReasons)
                    "Verification declined") }
    | .needs_review => { base with status := .UNDER_REVIEW }
    | .pending => { base with status := .PENDING }
  let auditEntry : KycAuditLogEntry :=
    { userId := v.userId
      verificationId := some v.id
      action := .STATUS_CHANGED
      details := [("from", v.status.str), ("to", updated.status.str),
        ("verificationId", result.verificationId)]
      ipAddress := none }
  let events : List KycEvent :=
    if updated.status = .APPROVED then
      [.approved v.userId v.level v.id updated.expiresAt false,
       .level_changed v.userId v.level]
    else if updated.status = .REJECTED then
      [.rejected v.userId v.level updated.rejectionReason]
    else []
  (updated, auditEntry, events)

/-- manualReview on one record: sets the requested status directly,
stamps approvedAt and expiresAt when approving, stores non-empty notes
as the rejection reason, audits with manual true, and emits APPROVED
when applicable. -/
def manualReview (now : Int) (v : KycVerification) (dto : ManualReviewDto) :
    KycVerification × KycAuditLogEntry × List KycEvent :=
  let u1 := { v with status := dto.status }
  let u2 :=
    if dto.status = .APPROVED then
      { u1 with approvedAt := some now,
                expiresAt := some (now + VERIFICATION_TTL_MS) }
    else u1
  let u3 :=
    match dto.notes with
    | some s => if s != "" then { u2 with rejectionReason := some s } else u2
    | none => u2
  let auditEntry : KycAuditLogEntry :=
    { userId := v.userId
      verificationId := some v.id
      action := .STATUS_CHANGED
      details := [("reviewedBy", dto.reviewedBy),
        ("status", dto.status.str),
        ("notes", match dto.notes with | some s => s | none => "null"),
        ("manual", "true")]
      ipAddress := none }
  let events : List KycEvent :=
    if dto.status = .APPROVED then
      [.approved v.userId v.level v.id none true]
    else []
  (u3, auditEntry, events)

/-- Record transform applied by the expiry sweep to a selected row. -/
def expireRecord (v : KycVerification) : KycVerification :=
  { v with status := .EXPIRED }

/-- Selection filter of the expiry sweep: status APPROVED and expiresAt
strictly before now (the TypeORM LessThan operator; a null expiresAt
never matches). -/
def sweepMatches (now : Int) (v : KycVerification) : Bool :=
  v.status == .APPROVED &&
    (match v.expiresAt with
     | some t => decide (t < now)
     | none => false)

/-- Result of one run of the expiry sweep. -/
structure SweepResult where
  records : List KycVerification
  audits : List KycAuditLogEntry
  events : List KycEvent
deriving DecidableEq

/-- expireVerifications: select the APPROVED rows with expiresAt before
now, flip each to EXPIRED by id, audit EXPIRED and emit an EXPIRED event
per selected row. -/
def expireVerifications (now : Int) (db : List KycVerification) :
    SweepResult :=
  let expired := db.filter (sweepMatches now)
  { records := expired.foldl
      (fun acc v => updateById acc v.id expireRecord) db
    audits := expired.map (fun v =>
      { userId := v.userId
        verificationId := some v.id
        action := .EXPIRED
        details := [("expiredAt", optIntStr v.expiresAt),
          ("level", toString v.level.toNat)]
        ipAddress := none })
    events := expired.map (fun v => KycEvent.expired v.userId v.level v.id) }

/-- Numeric value of a list of decimal digit characters. -/
def digitsToNat (ds : List Char) : Nat :=
  ds.foldl (fun a c => 10 * a + (c.toNat - 48)) 0

/-- JavaScript parseInt with radix 10: skip leading whitespace, read an
optional sign and then the maximal run of leading digits; NaN (none)
when no digit follows. -/
def parseIntJs (s : String) : Option Int :=
  let cs := s.toList.dropWhile (fun c => c.isWhitespace)
  let signNeg : Bool := match cs with | c :: _ => c == '-' | [] => false
  let rest : List Char :=
    match cs with
    | c :: r => if c == '-' || c == '+' then r else cs
    | [] => []
  let ds := rest.takeWhile Char.isDigit
  if ds.isEmpty then none
  else some ((if signNeg then -1 else 1) * (digitsToNat ds : Int))

/-- Value of one hexadecimal digit character, none when invalid. -/
def hexDigitVal (c : Char) : Option Nat :=
  if c.isDigit then some (c.toNat - 48)
  else if 97 ≤ c.toNat && c.toNat ≤ 102 then some (c.toNat - 87)
  else if 65 ≤ c.toNat && c.toNat ≤ 70 then some (c.toNat - 55)
  else none

/-- Hex decoding as performed by Buffer.from(s, hex): bytes are read in
pairs and decoding stops at the first invalid pair; a trailing odd
character is dropped. -/
def decodeHexPairs : List Char → List Nat
  | c1 :: c2 :: rest =>
    match hexDigitVal c1, hexDigitVal c2 with
    | some h, some l => (16 * h + l) :: decodeHexPairs rest
    | _, _ => []
  | _ => []

/-- Hex decoding of a string into a byte list. -/
def decodeHexJs (s : String) : List Nat :=
  decodeHexPairs s.toList

/-- Split of a character list at every occurrence of a separator
character, with the JavaScript String.split semantics: the empty input
yields one empty field, and a trailing separator yields a trailing empty
field. -/
def splitOnChar (sep : Char) : List Char → List (List Char)
  | [] => [[]]
  | c :: cs =>
    let r := splitOnChar sep cs
    if c == sep then [] :: r
    else
      match r with
      | h :: t => (c :: h) :: t
      | [] => [[c]]

/-- Splitting of the Persona-Signature header into key-value parts: split
on commas, then each part on equals signs, keeping the first two pieces
as key and value; a part without an equals sign maps its key to
undefined (none). -/
def parsePersonaHeaderParts (h : String) : List (String × Option String) :=
  (splitOnChar ',' h.toList).map (fun part =>
    match splitOnChar '=' part with
    | [] => ("", none)
    | [k] => (String.mk k, none)
    | k :: v :: _ => (String.mk k, some (String.mk v)))

/-- Field lookup in the parsed header with the Object.fromEntries
semantics: the last occurrence of a key wins. -/
def headerField (h : String) (key : String) : Option String :=
  match ((parsePersonaHeaderParts h).filter (fun p => p.1 == key)).getLast? with
  | some p => p.2
  | none => none

/-- PersonaProvider.verifyWebhookSignature: parse t and v1 out of the
header, reject a missing or empty field, reject a timestamp older than
300 seconds (a non-numeric timestamp passes this check because every
comparison against NaN is false), then compare the HMAC of
timestamp.rawBody against the received hex signature the way
crypto.timingSafeEqual over Buffer.from(hex) does.  The HMAC primitive
is the abstract parameter hmacHex, standing for HMAC-SHA256 under the
configured webhook secret, and the division by 1000 is taken exactly
over the rationals. -/
def personaVerifyWebhookSignature (hmacHex : String → String) (now : Int)
    (rawBody signatureHeader : String) : Bool :=
  match headerField signatureHeader "t", headerField signatureHeader "v1" with
  | some timestamp, some receivedSig =>
    if timestamp == "" || receivedSig == "" then false
    else
      let stale : Bool :=
        match parseIntJs timestamp with
        | some n => decide ((now : ℚ) / 1000 - (n : ℚ) > 300)
        | none => false
      if stale then false
      else decodeHexJs (hmacHex (timestamp ++ "." ++ rawBody))
        == decodeHexJs receivedSig
  | _, _ => false

/-- Signature gate of processPersonaWebhook: every failed verification is
rejected with the one generic BadRequestException message. -/
def processPersonaWebhookGate (hmacHex : String → String) (now : Int)
    (rawBody signatureHeader : String) : Except KycError Unit :=
  if personaVerifyWebhookSignature hmacHex now rawBody signatureHeader
  then .ok ()
  else .error (.badRequest "Invalid webhook signature")

/-- Outcome of one startKyc or resumeKyc call: the response or error, the
resulting store, and the side-channel audit entries and events. -/
structure StartOutcome where
  result : Except KycError StartKycResponseDto
  records : List KycVerification
  audits : List KycAuditLogEntry
  events : List KycEvent

/-- resumeKyc: requires a stored inquiryId (JavaScript truthiness, so an
empty string also fails), asks the Persona adapter for a fresh session
token, stores it, and answers with the Persona widget url.  No audit
entry and no event is written on this path. -/
def resumeKyc (persona : PersonaAdapter) (db : List KycVerification)
    (v : KycVerification) : StartOutcome :=
  match v.inquiryId with
  | some iq =>
    if iq == "" then
      { result := .error (.badRequest "No active inquiry to resume")
        records := db, audits := [], events := [] }
    else
      match persona.resumeInquiry iq with
      | .error e =>
        { result := .error (.providerFailure e)
          records := db, audits := [], events := [] }
      | .ok tok =>
        { result := .ok
            { verificationRecordId := v.id
              inquiryId := iq
              sessionToken := tok
              widgetUrl := "https://withpersona.com/verify?inquiry-id="
                ++ iq ++ "&session-token=" ++ tok }
          records := updateById db v.id
            (fun w => { w with sessionToken := some tok })
          audits := [], events := [] }
  | none =>
    { result := .error (.badRequest "No active inquiry to resume")
      records := db, audits := [], events := [] }

/-- Message of the prerequisite BadRequestException of startKyc, with the
numeric enum values interpolated. -/
def prereqMsg (target p : KycLevel) : String :=
  "Level " ++ toString target.toNat ++ " KYC requires an approved Level "
    ++ toString p.toNat ++ " verification first"

/-- Creation path of startKyc once the guards passed: save a PENDING
record, call the resolved provider adapter, persist the returned handles
or delete the record again when the call failed, audit INITIATED and
emit the INITIATED event on success. -/
def startKycCreate (persona : PersonaAdapter) (onfido : OnfidoAdapter)
    (db : List KycVerification) (userId : String) (dto : StartKycDto)
    (ipAddress : Option String) : StartOutcome :=
  let provider := dto.provider.getD .PERSONA
  let attempt := getAttemptCount db userId dto.targetLevel
  let newRec : KycVerification :=
    { id := freshId db
      userId := userId
      level := dto.targetLevel
      status := .PENDING
      provider := provider
      verificationId := none
      inquiryId := none
      sessionToken := none
      approvedAt := none
      expiresAt := none
      rejectionReason := none
      providerMetadata := []
      attemptCount := attempt + 1 }
  let db1 := db ++ [newRec]
  let initiatedAudit : KycAuditLogEntry :=
    { userId := userId
      verificationId := some newRec.id
      action := .INITIATED
      details := [("level", toString dto.targetLevel.toNat),
        ("provider", provider.str),
        ("attemptCount", toString (attempt + 1))]
      ipAddress := ipAddress }
  match provider with
  | .PERSONA =>
    match persona.createInquiry userId dto.targetLevel dto.redirectUrl with
    | .error e =>
      { result := .error (.providerFailure e)
        records := deleteById db1 newRec.id
        audits := [], events := [] }
    | .ok session =>
      { result := .ok
          { verificationRecordId := newRec.id
            inquiryId := session.inquiryId
            sessionToken := session.sessionToken
            widgetUrl := session.widgetUrl }
        records := updateById db1 newRec.id (fun w =>
          { w with inquiryId := some session.inquiryId,
                   sessionToken := some session.sessionToken })
        audits := [initiatedAudit]
        events := [.initiated userId dto.targetLevel newRec.id] }
  | .ONFIDO =>
    match onfido.createApplicantSession userId with
    | .error e =>
      { result := .error (.providerFailure e)
        records := deleteById db1 newRec.id
        audits := [], events := [] }
    | .ok session =>
      { result := .ok
          { verificationRecordId := newRec.id
            inquiryId := session.workflowRunId
            sessionToken := session.sdkToken
            widgetUrl := "" }
        records := updateById db1 newRec.id (fun w =>
          { w with inquiryId := some session.workflowRunId,
                   sessionToken := some session.sdkToken,
                   verificationId := some session.applicantId })
        audits := [initiatedAudit]
        events := [.initiated userId dto.targetLevel newRec.id] }

/-- startKyc: reject level NONE, enforce the level prerequisite through
getApprovedVerification, hand an existing PENDING record with a truthy
inquiryId to resumeKyc, and otherwise run the creation path. -/
def startKyc (persona : PersonaAdapter) (onfido : OnfidoAdapter)
    (db : List KycVerification) (userId : String) (dto : StartKycDto)
    (ipAddress : Option String) : StartOutcome :=
  if dto.targetLevel == .NONE then
    { result := .error (.badRequest "Cannot initiate KYC for level 0")
      records := db, audits := [], events := [] }
  else
    let afterPrereq : StartOutcome :=
      match db.find? (fun v => v.userId == userId &&
          v.level == dto.targetLevel && v.status == .PENDING) with
      | some existing =>
        if jsTruthy existing.inquiryId then resumeKyc persona db existing
        else startKycCreate persona onfido db userId dto ipAddress
      | none => startKycCreate persona onfido db userId dto ipAddress
    match LEVEL_PREREQUISITES dto.targetLevel with
    | some p =>
      match getApprovedVerification db userId p with
      | none =>
        { result := .error (.badRequest (prereqMsg dto.targetLevel p))
          records := db, audits := [], events := [] }
      | some _ => afterPrereq
    | none => afterPrereq

/-- Path guard of the creation branch: the prerequisite of the target
level is satisfied in the store. -/
def prereqSatisfied (db : List KycVerification) (userId : String)
    (lvl : KycLevel) : Bool :=
  match LEVEL_PREREQUISITES lvl with
  | none => true
  | some p => (getApprovedVerification db userId p).isSome

/-- Path guard of the resume branch: some PENDING record at the level is
found and carries a truthy inquiryId. -/
def hasResumablePending (db : List KycVerification) (userId : String)
    (lvl : KycLevel) : Bool :=
  match db.find? (fun v => v.userId == userId && v.level == lvl &&
      v.status == .PENDING) with
  | some v => jsTruthy v.inquiryId
  | none => false

/-- C3: the claim states the default rejection reason is used when the
declined reasons list is empty, but the source tests the joined string
with the JavaScript or operator, so a list holding one empty string also
falls back to the default instead of the (empty) join. -/
theorem C3_counterexample :
    (applyVerificationResult 0
        ⟨1, "u1", .BASIC, .PENDING, .PERSONA, none, none, none,
         none, none, none, [], 1⟩
        ⟨.declined, "ver1", [""], []⟩).1.rejectionReason
      = some "Verification declined"
    ∧ String.intercalate "; " [""] = ""
    ∧ ([""] : List String).isEmpty = false :=
  ⟨rfl, rfl, rfl⟩

/-- C3 (amended): applyProviderResult maps approved to APPROVED with
approvedAt now and expiresAt now plus 365 days, declined to REJECTED
with the joined declined reasons or the default string when the joined
string is empty, needs_review to UNDER_REVIEW and pending to PENDING. -/
theorem C3_apply_result_mapping (now : Int) (v : KycVerification)
    (verId : String) (reasons : List String) (meta : List (String × String)) :
    ((applyVerificationResult now v ⟨.approved, verId, reasons, meta⟩).1.status
        = .APPROVED
      ∧ (applyVerificationResult now v ⟨.approved, verId, reasons, meta⟩).1.approvedAt
        = some now
      ∧ (applyVerificationResult now v ⟨.approved, verId, reasons, meta⟩).1.expiresAt
        = some (now + 365 * 24 * 60 * 60 * 1000))
    ∧ ((applyVerificationResult now v ⟨.declined, verId, reasons, meta⟩).1.status
        = .REJECTED
      ∧ (applyVerificationResult now v ⟨.declined, verId, reasons, meta⟩).1.rejectionReason
        = some (jsOrElse (String.intercalate "; " reasons)
            "Verification declined"))
    ∧ (applyVerificationResult now v ⟨.needs_review, verId, reasons, meta⟩).1.status
        = .UNDER_REVIEW
    ∧ (applyVerificationResult now v ⟨.pending, verId, reasons, meta⟩).1.status
        = .PENDING :=
  ⟨⟨rfl, rfl, rfl⟩, ⟨rfl, rfl⟩, rfl, rfl⟩

/-- C9: the current-month usage lookup is the constant 0, so the limit
check rejects exactly when the requested amount alone exceeds the
non-null limit of the active level. -/
theorem C9_usage_placeholder_zero :
    (∀ u : String, getCurrentMonthUsage u = 0)
    ∧ ∀ (now : Int) (db : List KycVerification) (u : String) (req : ℚ),
        ((checkMonthlyLimit now db u req).1.isOk = false ↔
          ∃ l : ℚ, KYC_MONTHLY_LIMITS (getActiveKycLevel now db u) = some l
            ∧ req > l) := by
  refine ⟨fun _ => rfl, fun now db u req => ?_⟩
  unfold checkMonthlyLimit getCurrentMonthUsage
  cases hl : KYC_MONTHLY_LIMITS (getActiveKycLevel now db u) with
  | none => simp [hl, Except.isOk, Except.toBool]
  | some l =>
    simp only [hl, zero_add]
    by_cases hgt : l < req
    · simp [hgt, Except.isOk, Except.toBool]
    · simp [hgt, Except.isOk, Except.toBool]

/-- C6: checkMonthlyLimit fails with the limit-exceeded error and audits
LIMIT_EXCEEDED exactly when the limit is non-null and usage plus the
requested amount exceeds it; otherwise it returns the computed limit,
usage and remaining and audits LIMIT_CHECKED; one audit entry is
produced in either branch. -/
theorem C6_limit_check (now : Int) (db : List KycVerification)
    (u : String) (req : ℚ) :
    ((checkMonthlyLimit now db u req).1
        = .error (.forbiddenLimit
            (KYC_MONTHLY_LIMITS (getActiveKycLevel now db u)))
      ↔ ∃ l, KYC_MONTHLY_LIMITS (getActiveKycLevel now db u) = some l
          ∧ getCurrentMonthUsage u + req > l)
    ∧ ((checkMonthlyLimit now db u req).2.action = .LIMIT_EXCEEDED
      ↔ ∃ l, KYC_MONTHLY_LIMITS (getActiveKycLevel now db u) = some l
          ∧ getCurrentMonthUsage u + req > l)
    ∧ ((checkMonthlyLimit now db u req).2.action = .LIMIT_CHECKED
      ↔ ¬ ∃ l, KYC_MONTHLY_LIMITS (getActiveKycLevel now db u) = some l
          ∧ getCurrentMonthUsage u + req > l)
    ∧ (∀ l, KYC_MONTHLY_LIMITS (getActiveKycLevel now db u) = some l →
        ¬ getCurrentMonthUsage u + req > l →
        (checkMonthlyLimit now db u req).1 = .ok
          ⟨getActiveKycLevel now db u, some l, getCurrentMonthUsage u,
           some (l - getCurrentMonthUsage u), false⟩)
    ∧ (KYC_MONTHLY_LIMITS (getActiveKycLevel now db u) = none →
        (checkMonthlyLimit now db u req).1 = .ok
          ⟨getActiveKycLevel now db u, none, getCurrentMonthUsage u,
           none, false⟩) := by
  unfold checkMonthlyLimit
  cases hl : KYC_MONTHLY_LIMITS (getActiveKycLevel now db u) with
  | none => simp [hl]
  | some l =>
    by_cases hgt : getCurrentMonthUsage u + req > l
    · simp [hl, hgt]
    · simp [hl, hgt]

/-- C6 witness: with an empty store the active level is NONE (limit
1000); requesting 2000 fails and audits LIMIT_EXCEEDED, requesting 500
succeeds with the computed figures. -/
theorem C6_limit_check_witness :
    (checkMonthlyLimit 0 [] "u1" 2000).1
      = .error (.forbiddenLimit (some 1000))
    ∧ (checkMonthlyLimit 0 [] "u1" 2000).2.action = .LIMIT_EXCEEDED
    ∧ (checkMonthlyLimit 0 [] "u1" 500).1
      = .ok ⟨.NONE, some 1000, 0, some 1000, false⟩ := by
  refine ⟨?_, ?_, ?_⟩
  · exact (C6_limit_check 0 [] "u1" 2000).1.mpr
      ⟨1000, rfl, by norm_num [getCurrentMonthUsage]⟩
  · exact (C6_limit_check 0 [] "u1" 2000).2.1.mpr
      ⟨1000, rfl, by norm_num [getCurrentMonthUsage]⟩
  · have h := (C6_limit_check 0 [] "u1" 500).2.2.2.1 1000 rfl
      (by norm_num [getCurrentMonthUsage])
    rw [h]
    norm_num [getCurrentMonthUsage]
    rfl

/-- C7: a Persona webhook whose timestamp is older than 300 seconds is
rejected no matter what the HMAC comparison would say (the conclusion
holds for every abstract HMAC function, hence independently of it), and
every failed verification yields the one generic rejection error. -/
theorem C7_signature_replay :
    (∀ (hmacHex : String → String) (now : Int) (rawBody header : String),
      personaVerifyWebhookSignature hmacHex now rawBody header = false →
      processPersonaWebhookGate hmacHex now rawBody header
        = .error (.badRequest "Invalid webhook signature"))
    ∧ (∀ (hmacHex : String → String) (now : Int)
        (rawBody header tstr sig : String) (n : Int),
      headerField header "t" = some tstr →
      headerField header "v1" = some sig →
      parseIntJs tstr = some n →
      (now : ℚ) / 1000 - (n : ℚ) > 300 →
      personaVerifyWebhookSignature hmacHex now rawBody header = false) := by
  constructor
  · intro hmacHex now rawBody header h
    simp [processPersonaWebhookGate, h]
  · intro hmacHex now rawBody header tstr sig n h1 h2 h3 h4
    simp only [personaVerifyWebhookSignature, h1, h2, h3]
    by_cases he : (tstr == "" || sig == "") = true
    · simp [he]
    · simp [he, h4]

/-- C7 witness: at time 400000 ms the header timestamp 0 is 400 seconds
old; the webhook is rejected generically although the received signature
matches the (constant) HMAC byte for byte. -/
theorem C7_signature_replay_witness :
    personaVerifyWebhookSignature (fun _ => "00") 400000 "body" "t=0,v1=00"
      = false
    ∧ processPersonaWebhookGate (fun _ => "00") 400000 "body" "t=0,v1=00"
      = .error (.badRequest "Invalid webhook signature")
    ∧ decodeHexJs ((fun _ => "00") ("0" ++ "." ++ "body")) = decodeHexJs "00" := by
  have h2 := C7_signature_replay.2 (fun _ => "00") 400000 "body" "t=0,v1=00"
    "0" "00" 0 (by rfl) (by rfl) (by rfl) (by norm_num)
  exact ⟨h2, C7_signature_replay.1 _ _ _ _ h2, rfl⟩

/-- Helper: records with the same primary id in a store with no
duplicate ids are the same record. -/
theorem nodup_id_inj {db : List KycVerification}
    (h : (db.map KycVerification.id).Nodup) {v w : KycVerification}
    (hv : v ∈ db) (hw : w ∈ db) (heq : v.id = w.id) : v = w :=
  List.inj_on_of_nodup_map h hv hw heq

/-- Helper: a left fold of updateById over a list of rows equals one map
that rewrites exactly the rows whose id occurs in the list, provided the
transform is idempotent (id preservation is not even needed: a row can
only be rewritten once per id occurrence, and repeated rewrites collapse
by idempotence). -/
theorem foldl_updateById_eq_map (f : KycVerification → KycVerification)
    (hidem : ∀ w, f (f w) = f w)
    (l db : List KycVerification) :
    l.foldl (fun acc v => updateById acc v.id f) db
      = db.map (fun w =>
          if w.id ∈ l.map KycVerification.id then f w else w) := by
  induction l generalizing db with
  | nil => simp
  | cons v l ih =>
    rw [List.foldl_cons, ih]
    unfold updateById
    rw [List.map_map]
    apply List.map_congr_left
    intro w _
    by_cases h1 : w.id = v.id
    · simp only [Function.comp_apply, h1, if_pos]
      by_cases h2 : (f w).id ∈ l.map KycVerification.id
      · rw [if_pos h2, hidem,
          if_pos (by simp [List.mem_cons, h1])]
      · rw [if_neg h2, if_pos (by simp [List.mem_cons, h1])]
    · simp only [Function.comp_apply, if_neg h1]
      by_cases h2 : w.id ∈ l.map KycVerification.id
      · rw [if_pos h2, if_pos (by simp [List.mem_cons, h2])]
      · rw [if_neg h2, if_neg (by simp [List.mem_cons, h1, h2])]

/-- Helper: under unique primary ids, the id of a row of the store occurs
among the filtered ids exactly when the row itself passes the filter. -/
theorem mem_filter_ids_iff (now : Int) {db : List KycVerification}
    (h : (db.map KycVerification.id).Nodup) {w : KycVerification}
    (hw : w ∈ db) :
    w.id ∈ (db.filter (sweepMatches now)).map KycVerification.id
      ↔ sweepMatches now w = true := by
  constructor
  · intro hm
    obtain ⟨v, hv, hid⟩ := List.mem_map.1 hm
    obtain ⟨hvdb, hvm⟩ := List.mem_filter.1 hv
    rwa [nodup_id_inj h hvdb hw hid] at hvm
  · intro hm
    exact List.mem_map_of_mem _ (List.mem_filter.2 ⟨hw, hm⟩)

/-- Helper: under unique primary ids the sweep rewrites the store
pointwise, expiring exactly the rows that match the filter. -/
theorem sweep_records_eq_map (now : Int) (db : List KycVerification)
    (h : (db.map KycVerification.id).Nodup) :
    (expireVerifications now db).records
      = db.map (fun w =>
          if sweepMatches now w then expireRecord w else w) := by
  show (db.filter (sweepMatches now)).foldl
      (fun acc v => updateById acc v.id expireRecord) db = _
  rw [foldl_updateById_eq_map expireRecord (fun _ => rfl)]
  apply List.map_congr_left
  intro w hw
  by_cases hm : sweepMatches now w
  · rw [if_pos ((mem_filter_ids_iff now h hw).2 hm), if_pos hm]
  · rw [if_neg (fun hc => hm ((mem_filter_ids_iff now h hw).1 hc)),
      if_neg hm]

/-- Helper: a store in which no row matches the sweep filter passes
through the sweep unchanged, with no audit entry and no event. -/
theorem sweep_of_filter_nil (now : Int) (recs : List KycVerification)
    (h : recs.filter (sweepMatches now) = []) :
    expireVerifications now recs = ⟨recs, [], []⟩ := by
  unfold expireVerifications
  rw [h]
  rfl

/-- Helper: after one sweep no row matches the sweep filter any more. -/
theorem filter_sweep_after (now : Int) (db : List KycVerification)
    (h : (db.map KycVerification.id).Nodup) :
    ((expireVerifications now db).records).filter (sweepMatches now) = [] := by
  rw [sweep_records_eq_map now db h, List.filter_eq_nil_iff]
  intro w hw
  obtain ⟨x, _, rfl⟩ := List.mem_map.1 hw
  by_cases hm : sweepMatches now x = true
  · rw [if_pos hm]
    simp [sweepMatches, expireRecord]
  · rw [if_neg hm]
    exact hm

/-- C5: the claim says the sweep selects APPROVED records with expiresAt
less than or equal to now, but the source filters with the strict
LessThan operator: an APPROVED record whose expiresAt equals now is not
selected and passes the sweep unchanged. -/
theorem C5_counterexample :
    (expireVerifications 100
        [⟨1, "u1", .BASIC, .APPROVED, .PERSONA, none, none, none,
          some 0, some 100, none, [], 1⟩]).records
      = [⟨1, "u1", .BASIC, .APPROVED, .PERSONA, none, none, none,
          some 0, some 100, none, [], 1⟩]
    ∧ (expireVerifications 100
        [⟨1, "u1", .BASIC, .APPROVED, .PERSONA, none, none, none,
          some 0, some 100, none, [], 1⟩]).audits = []
    ∧ (expireVerifications 100
        [⟨1, "u1", .BASIC, .APPROVED, .PERSONA, none, none, none,
          some 0, some 100, none, [], 1⟩]).events = []
    ∧ ((100 : Int) ≤ 100) :=
  ⟨rfl, rfl, rfl, by norm_num⟩

/-- C5 (amended): under unique primary ids the sweep selects exactly the
APPROVED records whose expiresAt is non-null and strictly before now,
rewrites exactly those to EXPIRED, writes an EXPIRED audit entry and an
EXPIRED event for each, and re-running it immediately on the resulting
store is a no-op because no transitioned record matches the filter. -/
theorem C5_expiry_sweep (now : Int) (db : List KycVerification)
    (h : (db.map KycVerification.id).Nodup) :
    (∀ v : KycVerification, sweepMatches now v = true ↔
      (v.status = .APPROVED ∧ ∃ t, v.expiresAt = some t ∧ t < now))
    ∧ (expireVerifications now db).records
        = db.map (fun w =>
            if sweepMatches now w then expireRecord w else w)
    ∧ (∀ v ∈ db, sweepMatches now v = true →
        ({ userId := v.userId, verificationId := some v.id,
           action := .EXPIRED,
           details := [("expiredAt", optIntStr v.expiresAt),
             ("level", toString v.level.toNat)],
           ipAddress := none } : KycAuditLogEntry)
          ∈ (expireVerifications now db).audits
        ∧ KycEvent.expired v.userId v.level v.id
          ∈ (expireVerifications now db).events)
    ∧ expireVerifications now ((expireVerifications now db).records)
        = ⟨(expireVerifications now db).records, [], []⟩ := by
  refine ⟨?_, sweep_records_eq_map now db h, ?_,
    sweep_of_filter_nil now _ (filter_sweep_after now db h)⟩
  · intro v
    unfold sweepMatches
    cases hE : v.expiresAt <;> simp [hE]
  · intro v hv hm
    have hvf : v ∈ db.filter (sweepMatches now) :=
      List.mem_filter.2 ⟨hv, hm⟩
    exact ⟨List.mem_map_of_mem _ hvf, List.mem_map_of_mem _ hvf⟩

/-- C5 witness: a store with one APPROVED record expired at 50 swept at
time 100 flips the record to EXPIRED, and immediately re-running the
sweep changes nothing and emits nothing. -/
theorem C5_expiry_sweep_witness :
    (expireVerifications 100
        [⟨1, "u1", .BASIC, .APPROVED, .PERSONA, none, none, none,
          some 0, some 50, none, [], 1⟩]).records
      = [⟨1, "u1", .BASIC, .EXPIRED, .PERSONA, none, none, none,
          some 0, some 50, none, [], 1⟩]
    ∧ expireVerifications 100
        ((expireVerifications 100
          [⟨1, "u1", .BASIC, .APPROVED, .PERSONA, none, none, none,
            some 0, some 50, none, [], 1⟩]).records)
      = ⟨(expireVerifications 100
          [⟨1, "u1", .BASIC, .APPROVED, .PERSONA, none, none, none,
            some 0, some 50, none, [], 1⟩]).records, [], []⟩ := by
  have h := C5_expiry_sweep 100
    [⟨1, "u1", .BASIC, .APPROVED, .PERSONA, none, none, none,
      some 0, some 50, none, [], 1⟩] (by simp)
  refine ⟨?_, h.2.2.2⟩
  rw [h.2.1]
  rfl

/-- C1: the claim says an EXPIRED or REJECTED record accepts no further
transition, but applyProviderResult applies the mapped status with no
guard on the current status: an approved provider result moves a
REJECTED record to APPROVED. -/
theorem C1_counterexample :
    (applyVerificationResult 0
        ⟨1, "u1", .BASIC, .REJECTED, .PERSONA, none, none, none,
         none, none, none, [], 1⟩
        ⟨.approved, "ver1", [], []⟩).1.status = .APPROVED
    ∧ (KycStatus.APPROVED == KycStatus.REJECTED) = false :=
  ⟨rfl, rfl⟩

/-- C1 (amended): the expiry sweep never changes an EXPIRED or REJECTED
record and never moves a PENDING record to EXPIRED, but
applyProviderResult sets the status mapped from the provider result and
manualReview sets the requested status unconditionally, whatever the
current status of the record is, so EXPIRED and REJECTED records can
transition again through those two operations. -/
theorem C1_terminal_states (now : Int) (db : List KycVerification)
    (v : KycVerification) (r : ProviderResult) (dto : ManualReviewDto)
    (h : (db.map KycVerification.id).Nodup) :
    (expireVerifications now db).records
      = db.map (fun w => if sweepMatches now w then expireRecord w else w)
    ∧ (v.status = .EXPIRED ∨ v.status = .REJECTED →
        (if sweepMatches now v then expireRecord v else v) = v)
    ∧ (v.status = .PENDING →
        (if sweepMatches now v then expireRecord v else v).status
          = .PENDING)
    ∧ (applyVerificationResult now v r).1.status = canonTarget r.status
    ∧ (manualReview now v dto).1.status = dto.status := by
  refine ⟨sweep_records_eq_map now db h, ?_, ?_, ?_, ?_⟩
  · intro hv
    have hm : sweepMatches now v = false := by
      unfold sweepMatches
      rcases hv with h1 | h1 <;> simp [h1]
    simp [hm]
  · intro hv
    have hm : sweepMatches now v = false := by
      unfold sweepMatches
      simp [hv]
    simp [hm, hv]
  · cases r with
    | mk s vid dr pm => cases s <;> rfl
  · cases hn : dto.notes with
    | none =>
      simp only [manualReview, hn]
      split <;> rfl
    | some s =>
      simp only [manualReview, hn]
      split_ifs <;> rfl

/-- C1 witness: at concrete records the sweep leaves a REJECTED record
alone, an approved provider result still rewrites that REJECTED record
to APPROVED, and a manual review moves a PENDING record straight to
EXPIRED. -/
theorem C1_terminal_states_witness :
    (if sweepMatches 7
        ⟨1, "u1", .BASIC, .REJECTED, .PERSONA, none, none, none,
         none, some 3, none, [], 1⟩ then
      expireRecord ⟨1, "u1", .BASIC, .REJECTED, .PERSONA, none, none, none,
         none, some 3, none, [], 1⟩
     else ⟨1, "u1", .BASIC, .REJECTED, .PERSONA, none, none, none,
         none, some 3, none, [], 1⟩)
      = ⟨1, "u1", .BASIC, .REJECTED, .PERSONA, none, none, none,
         none, some 3, none, [], 1⟩
    ∧ (applyVerificationResult 7
        ⟨1, "u1", .BASIC, .REJECTED, .PERSONA, none, none, none,
         none, some 3, none, [], 1⟩
        ⟨.approved, "x", [], []⟩).1.status = canonTarget .approved
    ∧ (manualReview 7
        ⟨2, "u2", .BASIC, .PENDING, .PERSONA, none, none, none,
         none, none, none, [], 1⟩
        ⟨"admin", .EXPIRED, none⟩).1.status = .EXPIRED := by
  have h1 := C1_terminal_states 7 []
    ⟨1, "u1", .BASIC, .REJECTED, .PERSONA, none, none, none,
     none, some 3, none, [], 1⟩
    ⟨.approved, "x", [], []⟩ ⟨"admin", .EXPIRED, none⟩ (by simp)
  have h2 := C1_terminal_states 7 []
    ⟨2, "u2", .BASIC, .PENDING, .PERSONA, none, none, none,
     none, none, none, [], 1⟩
    ⟨.approved, "x", [], []⟩ ⟨"admin", .EXPIRED, none⟩ (by simp)
  exact ⟨h1.2.1 (Or.inr rfl), h1.2.2.2.1, h2.2.2.2.2⟩

/-- Helper: the numeric enum value determines the level. -/
theorem KycLevel.toNat_inj : ∀ a b : KycLevel, a.toNat = b.toNat → a = b := by
  decide

/-- Helper: levelMax computes the maximum of the numeric enum values. -/
theorem levelMax_toNat : ∀ a b : KycLevel,
    (levelMax a b).toNat = max a.toNat b.toNat := by
  decide

/-- Helper: levelMax commutes in its left arguments. -/
theorem levelMax_left_comm : ∀ a b c : KycLevel,
    levelMax a (levelMax b c) = levelMax b (levelMax a c) := by
  decide

/-- Helper: levelMax with a dominated right argument is its left one. -/
theorem levelMax_eq_left (a b : KycLevel) (h : b.toNat ≤ a.toNat) :
    levelMax a b = a := by
  unfold levelMax
  split
  · exact (KycLevel.toNat_inj a b (Nat.le_antisymm (by assumption) h)).symm
  · rfl

/-- Helper: the folded level maximum over a list is bounded by any bound
of the individual levels. -/
theorem foldr_levelMax_le (l : List KycVerification) (b : Nat)
    (hb : ∀ v ∈ l, v.level.toNat ≤ b) :
    (l.foldr (fun v acc => levelMax v.level acc) KycLevel.NONE).toNat ≤ b := by
  induction l with
  | nil => exact Nat.zero_le b
  | cons x xs ih =>
    rw [List.foldr_cons, levelMax_toNat]
    exact max_le (hb x (List.mem_cons_self x xs))
      (ih fun v hv => hb v (List.mem_cons_of_mem x hv))

/-- Helper: on a list sorted by level descending, the level of the first
fresh record (NONE when there is none) is the maximum level among the
fresh records. -/
theorem sorted_firstFresh_eq_max (now : Int) (l : List KycVerification)
    (hs : List.Sorted levelGeRel l) :
    (match l.find? (fun v => isFresh now v) with
     | some v => v.level
     | none => KycLevel.NONE)
      = (l.filter (fun v => isFresh now v)).foldr
          (fun v acc => levelMax v.level acc) KycLevel.NONE := by
  induction l with
  | nil => rfl
  | cons x xs ih =>
    rw [List.sorted_cons] at hs
    obtain ⟨hx, hxs⟩ := hs
    by_cases hf : isFresh now x = true
    · rw [List.find?_cons_of_pos _ hf, List.filter_cons_of_pos hf,
        List.foldr_cons]
      exact (levelMax_eq_left _ _ (foldr_levelMax_le _ _
        (fun v hv => hx v (List.mem_of_mem_filter hv)))).symm
    · rw [List.find?_cons_of_neg _ hf, List.filter_cons_of_neg hf]
      exact ih hxs

/-- Helper: the folded level maximum is invariant under permutation. -/
theorem perm_foldr_levelMax {l1 l2 : List KycVerification}
    (p : l1.Perm l2) :
    l1.foldr (fun v acc => levelMax v.level acc) KycLevel.NONE
      = l2.foldr (fun v acc => levelMax v.level acc) KycLevel.NONE := by
  induction p with
  | nil => rfl
  | cons x _ ih => simp only [List.foldr_cons, ih]
  | swap x y l => simp only [List.foldr_cons, levelMax_left_comm]
  | trans _ _ ih1 ih2 => exact ih1.trans ih2

/-- Helper: the live lookup agrees with the maximum-of-fresh-approved
levels reading of the spec. -/
theorem active_level_eq_spec (now : Int) (db : List KycVerification)
    (u : String) :
    getActiveKycLevel now db u = activeLevelSpec now db u := by
  unfold getActiveKycLevel activeLevelSpec
  rw [sorted_firstFresh_eq_max now _
    (List.sorted_insertionSort levelGeRel _)]
  rw [perm_foldr_levelMax
    ((List.perm_insertionSort levelGeRel _).filter _)]
  simp only [List.filter_filter]
  exact congrArg _ (List.filter_congr (fun a _ => by
    cases hf : isFresh now a <;>
      cases hp : (a.userId == u && a.status == KycStatus.APPROVED) <;>
        simp [hf, hp]))

/-- C4: the live active-level lookup equals the highest APPROVED level
whose expiresAt is null or strictly in the future (NONE by default), and
it already ignores records whose expiresAt has passed: removing every
non-fresh record from the store does not change the answer, even though
the status column of those records still reads APPROVED until the sweep
runs. -/
theorem C4_active_level (now : Int) (db : List KycVerification)
    (u : String) :
    getActiveKycLevel now db u = activeLevelSpec now db u
    ∧ getActiveKycLevel now db u
      = getActiveKycLevel now (db.filter (fun v => isFresh now v)) u := by
  refine ⟨active_level_eq_spec now db u, ?_⟩
  rw [active_level_eq_spec now db u,
    active_level_eq_spec now (db.filter (fun v => isFresh now v)) u]
  unfold activeLevelSpec
  simp only [List.filter_filter]
  exact congrArg _ (List.filter_congr (fun a _ => by
    cases hf : isFresh now a <;>
      cases hp : (a.userId == u && a.status == KycStatus.APPROVED) <;>
        simp [hf, hp]))

/-- Helper: every member of a natural number list is bounded by the
folded maximum. -/
theorem le_foldr_max (a : Nat) (l : List Nat) (h : a ∈ l) :
    a ≤ l.foldr max 0 := by
  induction l with
  | nil => cases h
  | cons x xs ih =>
    rcases List.mem_cons.1 h with rfl | h2
    · exact le_max_left _ _
    · exact le_trans (ih h2) (le_max_right _ _)

/-- Helper: the fresh id is strictly larger than every id in the store. -/
theorem id_lt_freshId {db : List KycVerification} {w : KycVerification}
    (hw : w ∈ db) : w.id < freshId db :=
  Nat.lt_succ_of_le (le_foldr_max _ _ (List.mem_map_of_mem _ hw))

/-- Helper: deleting the freshly appended record restores the store. -/
theorem deleteById_append_fresh (db : List KycVerification)
    (v : KycVerification) (hv : v.id = freshId db) :
    deleteById (db ++ [v]) (freshId db) = db := by
  unfold deleteById
  rw [List.filter_append]
  have h2 : List.filter (fun w => w.id != freshId db) [v] = [] := by
    simp [hv]
  rw [h2, List.append_nil]
  apply List.filter_eq_self.mpr
  intro w hw
  simp only [bne_iff_ne, ne_eq]
  exact Nat.ne_of_lt (id_lt_freshId hw)

/-- Helper: the creation path answers either with a response or with a
propagated provider failure, never with a BadRequestException. -/
theorem startKycCreate_result_shape (persona : PersonaAdapter)
    (onfido : OnfidoAdapter) (db : List KycVerification) (u : String)
    (dto : StartKycDto) (ip : Option String) :
    (∃ r, (startKycCreate persona onfido db u dto ip).result = .ok r)
    ∨ ∃ e, (startKycCreate persona onfido db u dto ip).result
        = .error (.providerFailure e) := by
  unfold startKycCreate
  dsimp only
  cases hp : dto.provider.getD .PERSONA with
  | PERSONA =>
    cases hc : persona.createInquiry u dto.targetLevel dto.redirectUrl with
    | error e => exact Or.inr ⟨e, rfl⟩
    | ok s => exact Or.inl ⟨_, rfl⟩
  | ONFIDO =>
    cases hc : onfido.createApplicantSession u with
    | error e => exact Or.inr ⟨e, rfl⟩
    | ok s => exact Or.inl ⟨_, rfl⟩

/-- Helper: the resume path answers with a response, the fixed
no-active-inquiry message, or a propagated provider failure. -/
theorem resumeKyc_result_shape (persona : PersonaAdapter)
    (db : List KycVerification) (v : KycVerification) :
    (∃ r, (resumeKyc persona db v).result = .ok r)
    ∨ (resumeKyc persona db v).result
        = .error (.badRequest "No active inquiry to resume")
    ∨ ∃ e, (resumeKyc persona db v).result = .error (.providerFailure e) := by
  unfold resumeKyc
  cases hiq : v.inquiryId with
  | none => exact Or.inr (Or.inl rfl)
  | some iq =>
    dsimp only
    by_cases he : (iq == "") = true
    · rw [if_pos he]
      exact Or.inr (Or.inl rfl)
    · rw [if_neg he]
      cases hc : persona.resumeInquiry iq with
      | error e => exact Or.inr (Or.inr ⟨e, rfl⟩)
      | ok tok => exact Or.inl ⟨_, rfl⟩

/-- Helper: when the resolved provider call fails, the creation path
deletes the freshly created record and propagates the failure with no
audit entry and no event. -/
theorem startKycCreate_provider_failure (persona : PersonaAdapter)
    (onfido : OnfidoAdapter) (db : List KycVerification) (u : String)
    (dto : StartKycDto) (ip : Option String) (e : String)
    (h3 : (dto.provider.getD .PERSONA = .PERSONA
            ∧ persona.createInquiry u dto.targetLevel dto.redirectUrl
              = .error e)
        ∨ (dto.provider.getD .PERSONA = .ONFIDO
            ∧ onfido.createApplicantSession u = .error e)) :
    startKycCreate persona onfido db u dto ip
      = ⟨.error (.providerFailure e), db, [], []⟩ := by
  unfold startKycCreate
  dsimp only
  rcases h3 with ⟨hp, hc⟩ | ⟨hp, hc⟩ <;>
    rw [hp, hc] <;>
    rw [deleteById_append_fresh db _ rfl]

/-- Helper: when the guards pass and a PENDING record with a truthy
inquiryId is found, startKyc delegates to resumeKyc on that record. -/
theorem startKyc_resume_path (persona : PersonaAdapter)
    (onfido : OnfidoAdapter) (db : List KycVerification) (u : String)
    (dto : StartKycDto) (ip : Option String) (r : KycVerification)
    (h0 : dto.targetLevel ≠ .NONE)
    (h1 : prereqSatisfied db u dto.targetLevel = true)
    (h2 : db.find? (fun v => v.userId == u && v.level == dto.targetLevel
        && v.status == .PENDING) = some r)
    (h3 : jsTruthy r.inquiryId = true) :
    startKyc persona onfido db u dto ip = resumeKyc persona db r := by
  unfold startKyc
  rw [if_neg (by simp only [beq_iff_eq]; exact h0)]
  dsimp only
  rcases hL : LEVEL_PREREQUISITES dto.targetLevel with _ | p
  · dsimp only
    rw [h2]
    dsimp only
    rw [if_pos h3]
  · dsimp only
    unfold prereqSatisfied at h1
    rw [hL] at h1
    dsimp only at h1
    obtain ⟨w, hw⟩ := Option.isSome_iff_exists.mp h1
    rw [hw]
    dsimp only
    rw [h2]
    dsimp only
    rw [if_pos h3]

/-- Helper: when the guards pass and no resumable PENDING record exists,
startKyc runs the creation path. -/
theorem startKyc_create_path (persona : PersonaAdapter)
    (onfido : OnfidoAdapter) (db : List KycVerification) (u : String)
    (dto : StartKycDto) (ip : Option String)
    (h0 : dto.targetLevel ≠ .NONE)
    (h1 : prereqSatisfied db u dto.targetLevel = true)
    (h2 : hasResumablePending db u dto.targetLevel = false) :
    startKyc persona onfido db u dto ip
      = startKycCreate persona onfido db u dto ip := by
  unfold startKyc
  rw [if_neg (by simp only [beq_iff_eq]; exact h0)]
  dsimp only
  unfold hasResumablePending at h2
  rcases hL : LEVEL_PREREQUISITES dto.targetLevel with _ | p
  · dsimp only
    rcases hf : db.find? (fun v => v.userId == u && v.level == dto.targetLevel
        && v.status == .PENDING) with _ | ex
    · rw [hf]
    · rw [hf] at h2
      dsimp only at h2
      rw [hf]
      dsimp only
      rw [if_neg (by simp [h2])]
  · dsimp only
    unfold prereqSatisfied at h1
    rw [hL] at h1
    dsimp only at h1
    obtain ⟨w, hw⟩ := Option.isSome_iff_exists.mp h1
    rw [hw]
    dsimp only
    rcases hf : db.find? (fun v => v.userId == u && v.level == dto.targetLevel
        && v.status == .PENDING) with _ | ex
    · rw [hf]
    · rw [hf] at h2
      dsimp only at h2
      rw [hf]
      dsimp only
      rw [if_neg (by simp [h2])]

/-- C2: the claim requires the BASIC prerequisite record to be APPROVED
and unexpired, but getApprovedVerification never looks at expiresAt: a
user whose only BASIC record is APPROVED with expiresAt in the past
(pre-sweep) still starts ENHANCED successfully instead of failing. -/
theorem C2_counterexample :
    (startKyc ⟨fun _ _ _ => .ok ⟨"inq1", "tok1", "url1"⟩, fun _ => .error "x"⟩
        ⟨fun _ => .error "x"⟩
        [⟨1, "u1", .BASIC, .APPROVED, .PERSONA, none, none, none,
          some 0, some 0, none, [], 1⟩]
        "u1" ⟨.ENHANCED, none, none⟩ none).result
      = .ok ⟨2, "inq1", "tok1", "url1"⟩
    ∧ (⟨1, "u1", .BASIC, .APPROVED, .PERSONA, none, none, none,
        some 0, some 0, none, [], 1⟩ : KycVerification).expiresAt = some 0 :=
  ⟨rfl, rfl⟩

/-- C2 (amended): startKyc with target ENHANCED fails with the
prerequisite error exactly when the user has no BASIC record with status
APPROVED, with no freshness condition on expiresAt; whenever such a
record exists, expired or not, the prerequisite check passes. -/
theorem C2_enhanced_prereq (persona : PersonaAdapter)
    (onfido : OnfidoAdapter) (db : List KycVerification) (u : String)
    (prov : Option KycProvider) (ru ip : Option String) :
    (startKyc persona onfido db u ⟨.ENHANCED, prov, ru⟩ ip).result
      = .error (.badRequest (prereqMsg .ENHANCED .BASIC))
    ↔ getApprovedVerification db u .BASIC = none := by
  rcases ho : getApprovedVerification db u .BASIC with _ | w
  · refine iff_of_true ?_ rfl
    unfold startKyc
    rw [if_neg (by dsimp only; decide)]
    dsimp only [LEVEL_PREREQUISITES]
    rw [ho]
  · refine iff_of_false ?_ (by simp)
    intro hres
    have hnc : ∀ o : StartOutcome,
        o = startKycCreate persona onfido db u ⟨.ENHANCED, prov, ru⟩ ip →
        o.result = .error (.badRequest (prereqMsg .ENHANCED .BASIC)) →
        False := by
      intro o hoe hor
      rw [hoe] at hor
      rcases startKycCreate_result_shape persona onfido db u
          ⟨.ENHANCED, prov, ru⟩ ip with ⟨r2, hr⟩ | ⟨e, he⟩
      · rw [hr] at hor
        exact Except.noConfusion hor
      · rw [he] at hor
        injection hor with hh
        exact KycError.noConfusion hh
    unfold startKyc at hres
    rw [if_neg (by dsimp only; decide)] at hres
    dsimp only [LEVEL_PREREQUISITES] at hres
    rw [ho] at hres
    dsimp only at hres
    rcases hf : db.find? (fun v => v.userId == u
        && v.level == (⟨.ENHANCED, prov, ru⟩ : StartKycDto).targetLevel
        && v.status == .PENDING) with _ | ex
    · rw [hf] at hres
      dsimp only at hres
      exact hnc _ rfl hres
    · rw [hf] at hres
      dsimp only at hres
      by_cases ht : jsTruthy ex.inquiryId = true
      · rw [if_pos ht] at hres
        rcases resumeKyc_result_shape persona db ex with
          ⟨r2, hr⟩ | hr | ⟨e, hr⟩
        · rw [hr] at hres
          exact Except.noConfusion hres
        · rw [hr] at hres
          injection hres with h1
          injection h1 with h2
          exact absurd h2 (by decide)
        · rw [hr] at hres
          injection hres with h1
          exact KycError.noConfusion h1
      · rw [if_neg ht] at hres
        exact hnc _ rfl hres

/-- C8: when the creation path is reached and the resolved provider
session call fails, startKyc deletes the freshly created PENDING record
(restoring the store exactly), writes no audit entry, emits no event,
and propagates the provider failure. -/
theorem C8_provider_rollback (persona : PersonaAdapter)
    (onfido : OnfidoAdapter) (db : List KycVerification) (u : String)
    (dto : StartKycDto) (ip : Option String) (e : String)
    (h0 : dto.targetLevel ≠ .NONE)
    (h1 : prereqSatisfied db u dto.targetLevel = true)
    (h2 : hasResumablePending db u dto.targetLevel = false)
    (h3 : (dto.provider.getD .PERSONA = .PERSONA
            ∧ persona.createInquiry u dto.targetLevel dto.redirectUrl
              = .error e)
        ∨ (dto.provider.getD .PERSONA = .ONFIDO
            ∧ onfido.createApplicantSession u = .error e)) :
    startKyc persona onfido db u dto ip
      = ⟨.error (.providerFailure e), db, [], []⟩ := by
  rw [startKyc_create_path persona onfido db u dto ip h0 h1 h2,
    startKycCreate_provider_failure persona onfido db u dto ip e h3]

/-- C8 witness: with an empty store and a failing Persona adapter, a
BASIC start propagates the failure and leaves the store empty. -/
theorem C8_provider_rollback_witness :
    startKyc ⟨fun _ _ _ => .error "down", fun _ => .error "down"⟩
        ⟨fun _ => .error "down"⟩ [] "u1" ⟨.BASIC, none, none⟩ none
      = ⟨.error (.providerFailure "down"), [], [], []⟩ :=
  C8_provider_rollback ⟨fun _ _ _ => .error "down", fun _ => .error "down"⟩
    ⟨fun _ => .error "down"⟩ [] "u1" ⟨.BASIC, none, none⟩ none "down"
    (by decide) rfl rfl (Or.inl ⟨rfl, rfl⟩)

/-- C10: resuming an existing PENDING record always asks the Persona
adapter for the fresh session token and answers with the Persona widget
url, whatever the stored provider field of the record says; the outcome
does not depend on the Onfido adapter at all. -/
theorem C10_resume_persona (persona : PersonaAdapter)
    (onfido1 onfido2 : OnfidoAdapter) (db : List KycVerification)
    (u : String) (dto : StartKycDto) (ip : Option String)
    (r : KycVerification) (iq tok : String)
    (h0 : dto.targetLevel ≠ .NONE)
    (h1 : prereqSatisfied db u dto.targetLevel = true)
    (h2 : db.find? (fun v => v.userId == u && v.level == dto.targetLevel
        && v.status == .PENDING) = some r)
    (h3 : r.inquiryId = some iq)
    (h4 : iq ≠ "")
    (h5 : persona.resumeInquiry iq = .ok tok) :
    (startKyc persona onfido1 db u dto ip).result
      = .ok ⟨r.id, iq, tok,
          "https://withpersona.com/verify?inquiry-id=" ++ iq
            ++ "&session-token=" ++ tok⟩
    ∧ startKyc persona onfido1 db u dto ip
      = startKyc persona onfido2 db u dto ip := by
  have ht : jsTruthy r.inquiryId = true := by
    rw [h3]
    simp [jsTruthy, h4]
  have e1 := startKyc_resume_path persona onfido1 db u dto ip r h0 h1 h2 ht
  have e2 := startKyc_resume_path persona onfido2 db u dto ip r h0 h1 h2 ht
  refine ⟨?_, e1.trans e2.symm⟩
  rw [e1]
  unfold resumeKyc
  rw [h3]
  dsimp only
  rw [if_neg (by simp [h4]), h5]

/-- C10 witness: a PENDING record stored with provider ONFIDO and the
inquiry id iq1 is resumed through the Persona adapter, returning its
token and the Persona widget url, identically under two different Onfido
adapters. -/
theorem C10_resume_persona_witness :
    (startKyc ⟨fun _ _ _ => .error "unused", fun _ => .ok "tok1"⟩
        ⟨fun _ => .error "a"⟩
        [⟨1, "u1", .BASIC, .PENDING, .ONFIDO, none, some "iq1", none,
          none, none, none, [], 1⟩]
        "u1" ⟨.BASIC, none, none⟩ none).result
      = .ok ⟨1, "iq1", "tok1",
          "https://withpersona.com/verify?inquiry-id=" ++ "iq1"
            ++ "&session-token=" ++ "tok1"⟩
    ∧ startKyc ⟨fun _ _ _ => .error "unused", fun _ => .ok "tok1"⟩
        ⟨fun _ => .error "a"⟩
        [⟨1, "u1", .BASIC, .PENDING, .ONFIDO, none, some "iq1", none,
          none, none, none, [], 1⟩]
        "u1" ⟨.BASIC, none, none⟩ none
      = startKyc ⟨fun _ _ _ => .error "unused", fun _ => .ok "tok1"⟩
        ⟨fun _ => .ok ⟨"x", "y", "z"⟩⟩
        [⟨1, "u1", .BASIC, .PENDING, .ONFIDO, none, some "iq1", none,
          none, none, none, [], 1⟩]
        "u1" ⟨.BASIC, none, none⟩ none :=
  C10_resume_persona ⟨fun _ _ _ => .error "unused", fun _ => .ok "tok1"⟩
    ⟨fun _ => .error "a"⟩ ⟨fun _ => .ok ⟨"x", "y", "z"⟩⟩
    [⟨1, "u1", .BASIC, .PENDING, .ONFIDO, none, some "iq1", none,
      none, none, none, [], 1⟩]
    "u1" ⟨.BASIC, none, none⟩ none
    ⟨1, "u1", .BASIC, .PENDING, .ONFIDO, none, some "iq1", none,
      none, none, none, [], 1⟩
    "iq1" "tok1" (by decide) rfl rfl rfl (by decide) rfl

/-- C2 witness: with an empty store (hence no BASIC record at all) the
ENHANCED start fails with the prerequisite error. -/
theorem C2_enhanced_prereq_witness :
    (startKyc ⟨fun _ _ _ => .error "x", fun _ => .error "x"⟩
        ⟨fun _ => .error "x"⟩ [] "u1" ⟨.ENHANCED, none, none⟩ none).result
      = .error (.badRequest (prereqMsg .ENHANCED .BASIC)) :=
  (C2_enhanced_prereq ⟨fun _ _ _ => .error "x", fun _ => .error "x"⟩
    ⟨fun _ => .error "x"⟩ [] "u1" none none none).mpr rfl

/-- C9 witness: usage is the constant 0, and with an empty store (level
NONE, limit 1000) a request of 2000 is rejected on its own. -/
theorem C9_usage_placeholder_zero_witness :
    getCurrentMonthUsage "u1" = 0
    ∧ (checkMonthlyLimit 0 [] "u1" 2000).1.isOk = false :=
  ⟨C9_usage_placeholder_zero.1 "u1",
   (C9_usage_placeholder_zero.2 0 [] "u1" 2000).mpr
     ⟨1000, rfl, by norm_num⟩⟩
